import Mathlib

/-!
# Verification of the voice-assistant client and chat route

Shallow embedding of the stateful logic of `src/app/page.tsx` (the
`VoiceAssistant` React component) and of `src/app/api/chat/route.ts`.

React `useState` values and the `finalTranscriptRef` ref are collected in an
explicit `AppState` record; each event handler of the source becomes a Lean
function on that record, with the sequential reads/writes of the handler body
carried out by explicit state passing.  The outcome of a `fetch` call is an
input to the handler (`FetchOutcome`), since the network is external.  Timers
are modelled by a field recording whether a timeout is scheduled (and with
which delay); a scheduled timeout firing is an explicit event.
-/

namespace VoiceAssistant

/-- Message role, from the `Message` interface of `page.tsx`. -/
inductive Role where
  | user
  | assistant
deriving DecidableEq, Repr

/-- The `Message` interface of `page.tsx`: `role`, `content`, `timestamp`.
`content` is `Option String` because the source reads `data.response` without
checking it is present: `none` models a JavaScript `undefined` field. -/
structure Message where
  role : Role
  content : Option String
  timestamp : Nat
deriving DecidableEq, Repr

/-- The `TokenUsage` interface of `page.tsx` (also the shape of the `usage`
object built by the chat route). -/
structure TokenUsage where
  promptTokens : Nat
  completionTokens : Nat
  totalTokens : Nat
deriving DecidableEq, Repr

/-- The `CostCalculation` interface of `page.tsx`.  Monetary amounts are
modelled over `ℚ`; the source uses JavaScript numbers, which the spec treats
as advisory (floating point acceptable). -/
structure CostCalculation where
  totalPromptTokens : Nat
  totalCompletionTokens : Nat
  totalTokens : Nat
  totalCostUSD : ℚ
  totalCostBDT : ℚ
deriving DecidableEq, Repr

/-- Pricing constant `PROMPT_TOKEN_COST = 0.005` ($ per 1K prompt tokens). -/
def PROMPT_TOKEN_COST : ℚ := 5 / 1000

/-- Pricing constant `COMPLETION_TOKEN_COST = 0.015` ($ per 1K completion tokens). -/
def COMPLETION_TOKEN_COST : ℚ := 15 / 1000

/-- Exchange-rate constant `USD_TO_BDT_RATE = 110`. -/
def USD_TO_BDT_RATE : ℚ := 110

/-- Function `calculateCost` of `page.tsx`: computes the dollar cost of one usage
delta and adds all five components onto the previous `costs` state. -/
def calculateCost (usage : TokenUsage) (prev : CostCalculation) : CostCalculation :=
  let promptCost : ℚ := ((usage.promptTokens : ℚ) / 1000) * PROMPT_TOKEN_COST
  let completionCost : ℚ := ((usage.completionTokens : ℚ) / 1000) * COMPLETION_TOKEN_COST
  let totalCostUSD : ℚ := promptCost + completionCost
  let totalCostBDT : ℚ := totalCostUSD * USD_TO_BDT_RATE
  { totalPromptTokens := prev.totalPromptTokens + usage.promptTokens
    totalCompletionTokens := prev.totalCompletionTokens + usage.completionTokens
    totalTokens := prev.totalTokens + usage.totalTokens
    totalCostUSD := prev.totalCostUSD + totalCostUSD
    totalCostBDT := prev.totalCostBDT + totalCostBDT }

/-- Function `resetCosts` of `page.tsx`. -/
def resetCosts : CostCalculation :=
  { totalPromptTokens := 0
    totalCompletionTokens := 0
    totalTokens := 0
    totalCostUSD := 0
    totalCostBDT := 0 }

/-- The body of a chat-route response as the client reads it: `data.response`
and `data.usage`, each possibly absent (`undefined`). -/
structure ChatBody where
  response : Option String
  usage : Option TokenUsage
deriving DecidableEq, Repr

/-- Outcome of a `fetch("/api/chat", ...)` call, as seen by the client:
the promise rejects (`networkError`), or an HTTP response arrives with an
`ok` flag and a body.  `body = none` models a body on which
`response.json()` throws (unparseable); `body = some data` is a parsed JSON
object. -/
inductive FetchOutcome where
  | networkError
  | response (ok : Bool) (body : Option ChatBody)
deriving DecidableEq, Repr

/-- Delay constant `SILENCE_TIMEOUT_MS`: the silence timer delay of `page.tsx` (`setTimeout(...,
3000)` in `recognition.onresult`). -/
def SILENCE_TIMEOUT_MS : Nat := 3000

/-- Delay of the `onend` restart of `page.tsx` (`setTimeout(..., 100)`). -/
def ONEND_RESTART_DELAY_MS : Nat := 100

/-- Delay of the `onerror` restart of `page.tsx` (`setTimeout(..., 1000)`). -/
def ONERROR_RESTART_DELAY_MS : Nat := 1000

/-- The component state of `page.tsx`: every `useState` hook plus the
`finalTranscriptRef` ref.  `silenceTimer` records whether the `silenceTimer`
state variable holds a (possibly already fired) timer handle, i.e. is
non-null; `timerArmed` records whether a silence timeout is actually
scheduled in the runtime, together with its delay in milliseconds. -/
structure AppState where
  isListening : Bool
  isProcessing : Bool
  isSpeaking : Bool
  messages : List Message
  transcript : String
  error : String
  silenceTimer : Bool
  timerArmed : Option Nat
  hasSpokenContent : Bool
  costs : CostCalculation
  finalTranscript : String
deriving DecidableEq, Repr

/-- The initial component state: the initial value of every `useState` hook
and of `finalTranscriptRef`. -/
def initState : AppState :=
  { isListening := false
    isProcessing := false
    isSpeaking := false
    messages := []
    transcript := ""
    error := ""
    silenceTimer := false
    timerArmed := none
    hasSpokenContent := false
    costs := resetCosts
    finalTranscript := "" }

/-- JavaScript `String.prototype.trim()`, as called by the source on inputs
and on the transcript buffer: drops whitespace from both ends.  Modelled over
the character list of the string (Lean's own `String.trim` is defined through
byte-position iterators, which a shallow embedding has no reason to adopt). -/
def jsTrim (s : String) : String :=
  ⟨List.rdropWhile Char.isWhitespace (s.data.dropWhile Char.isWhitespace)⟩

/-- Error string set by `handleUserInput` on failure. -/
def FAILED_MSG : String := "Failed to process your request. Please try again."

/-- Result of running `handleUserInput` (or `requestIELTSScore`) to
completion: the final component state, whether a backend call was issued,
and, when the call succeeded, the text handed to the delayed
`speakText(data.response)` call (inner `none` = `undefined`). -/
structure TurnResult where
  state : AppState
  backendCalled : Bool
  speechScheduled : Option (Option String)
deriving DecidableEq, Repr

/-- Function `handleUserInput` of `page.tsx` (lines 258-317), run to completion with
the given fetch outcome.  Mirrors the source statement by statement:
whitespace-only input returns immediately; otherwise the user message is
appended and `processing` set before the fetch; a rejected fetch, a non-ok
status, or an unparseable body all land in the `catch` branch; a parsed body
always yields an appended assistant message built from `data.response`, a
`calculateCost` call when `data.usage` is present, and a scheduled
`speakText(data.response)`; the `finally` branch resets `processing`. -/
def handleUserInput (now : Nat) (input : String) (outcome : FetchOutcome)
    (s : AppState) : TurnResult :=
  if jsTrim input = "" then ⟨s, false, none⟩
  else
    let userMessage : Message := ⟨Role.user, some input, now⟩
    let s1 := { s with messages := s.messages ++ [userMessage]
                       isProcessing := true
                       transcript := "" }
    match outcome with
    | FetchOutcome.networkError =>
        ⟨{ s1 with error := FAILED_MSG, isProcessing := false }, true, none⟩
    | FetchOutcome.response ok body =>
        if ok = false then
          ⟨{ s1 with error := FAILED_MSG, isProcessing := false }, true, none⟩
        else
          match body with
          | none =>
              ⟨{ s1 with error := FAILED_MSG, isProcessing := false }, true, none⟩
          | some data =>
              let assistantMessage : Message := ⟨Role.assistant, data.response, now⟩
              let s2 := { s1 with messages := s1.messages ++ [assistantMessage] }
              let s3 :=
                match data.usage with
                | some u => { s2 with costs := calculateCost u s2.costs }
                | none => s2
              ⟨{ s3 with isProcessing := false }, true, some data.response⟩

/-- Local error string of `requestIELTSScore` (`page.tsx` line 321). -/
def NEED_CONVERSATION_MSG : String :=
  "Please have a conversation first before requesting an IELTS score."

/-- Failure error string of `requestIELTSScore` (`page.tsx` line 367). -/
def IELTS_FAILED_MSG : String := "Failed to get IELTS score. Please try again."

/-- Function `requestIELTSScore` of `page.tsx` (lines 319-372), run to completion with
the given fetch outcome.  An empty conversation log is rejected locally
(error set, no backend call); otherwise the structure mirrors
`handleUserInput` without a user message append. -/
def requestIELTSScore (now : Nat) (outcome : FetchOutcome)
    (s : AppState) : TurnResult :=
  if s.messages.length = 0 then
    ⟨{ s with error := NEED_CONVERSATION_MSG }, false, none⟩
  else
    let s1 := { s with isProcessing := true }
    match outcome with
    | FetchOutcome.networkError =>
        ⟨{ s1 with error := IELTS_FAILED_MSG, isProcessing := false }, true, none⟩
    | FetchOutcome.response ok body =>
        if ok = false then
          ⟨{ s1 with error := IELTS_FAILED_MSG, isProcessing := false }, true, none⟩
        else
          match body with
          | none =>
              ⟨{ s1 with error := IELTS_FAILED_MSG, isProcessing := false }, true, none⟩
          | some data =>
              let scoreMessage : Message := ⟨Role.assistant, data.response, now⟩
              let s2 := { s1 with messages := s1.messages ++ [scoreMessage] }
              let s3 :=
                match data.usage with
                | some u => { s2 with costs := calculateCost u s2.costs }
                | none => s2
              ⟨{ s3 with isProcessing := false }, true, some data.response⟩

/-- The loop at the top of `recognition.onresult`: splits the event's result
list (each result: `isFinal` flag and top-alternative transcript) into the
concatenated final and interim transcripts, in delivery order. -/
def splitResults (results : List (Bool × String)) : String × String :=
  results.foldl
    (fun acc r => if r.1 then (acc.1 ++ r.2, acc.2) else (acc.1, acc.2 ++ r.2))
    ("", "")

/-- Handler `recognition.onresult` of `page.tsx` (lines 125-170): refreshes the live
transcript preview; on a non-empty final transcript appends it to
`finalTranscriptRef`, marks spoken content, clears any existing silence timer
and schedules a fresh 3000 ms one; on a non-empty interim transcript with a
non-null `silenceTimer`, cancels the timer and nulls the variable. -/
def onresult (results : List (Bool × String)) (s : AppState) : AppState :=
  let p := splitResults results
  let finalT := p.1
  let interimT := p.2
  let s1 := { s with transcript := s.finalTranscript ++ finalT ++ interimT }
  let s2 :=
    if finalT = "" then s1
    else
      { s1 with finalTranscript := s1.finalTranscript ++ finalT
                hasSpokenContent := true
                timerArmed := some SILENCE_TIMEOUT_MS
                silenceTimer := true }
  if interimT = "" then s2
  else if s2.silenceTimer then { s2 with timerArmed := none, silenceTimer := false }
  else s2

/-- The body of the silence timeout scheduled in `recognition.onresult`
(lines 154-160): when the trimmed buffer is non-empty and spoken content was
flagged, submits the trimmed buffer via `handleUserInput` and clears buffer
and flag.  Returns the submitted turn content, if any. -/
def silenceCallback (now : Nat) (outcome : FetchOutcome)
    (s : AppState) : AppState × Option String :=
  if jsTrim s.finalTranscript = "" then (s, none)
  else if s.hasSpokenContent then
    let submitted := jsTrim s.finalTranscript
    let r := handleUserInput now submitted outcome s
    ({ r.state with finalTranscript := "", hasSpokenContent := false }, some submitted)
  else (s, none)

/-- Function `stopListening` of `page.tsx` (lines 240-256): clears the listening flag,
stops the engine, cancels and nulls any non-null silence timer, and, when the
trimmed buffer is non-empty, flushes it through `handleUserInput` and empties
the buffer; finally clears `hasSpokenContent`.  Returns the submitted turn
content, if any. -/
def stopListening (now : Nat) (outcome : FetchOutcome)
    (s : AppState) : AppState × Option String :=
  let s1 := { s with isListening := false }
  let s2 :=
    if s1.silenceTimer then { s1 with timerArmed := none, silenceTimer := false }
    else s1
  if jsTrim s2.finalTranscript = "" then
    ({ s2 with hasSpokenContent := false }, none)
  else
    let submitted := jsTrim s2.finalTranscript
    let r := handleUserInput now submitted outcome s2
    ({ r.state with finalTranscript := "", hasSpokenContent := false }, some submitted)

/-- Function `startListening` of `page.tsx` (lines 224-238), in the case where the
recognition engine is available: a no-op when already listening, otherwise
clears preview, error, buffer and spoken-content flag (the `isListening` flag
itself is set by the engine's `onstart` callback). -/
def startListening (s : AppState) : AppState :=
  if s.isListening then s
  else
    { s with transcript := ""
             error := ""
             finalTranscript := ""
             hasSpokenContent := false }

/-- Handler `recognition.onstart` of `page.tsx` (lines 118-123). -/
def onstart (s : AppState) : AppState :=
  { s with isListening := true
           error := ""
           finalTranscript := ""
           hasSpokenContent := false }

/-- Handler `recognition.onerror` of `page.tsx` (lines 172-190): returns with no state
change on `"network"` and `"no-speech"`; for any other error except
`"aborted"` sets the error string and schedules a 1000 ms restart attempt;
`"aborted"` falls through with no state change and no restart.  The returned
flag records whether a restart attempt was scheduled. -/
def onerror (errType : String) (s : AppState) : AppState × Bool :=
  if errType = "network" ∨ errType = "no-speech" then (s, false)
  else if errType = "aborted" then (s, false)
  else ({ s with error := "Speech recognition error: " ++ errType }, true)

/-- The body of the restart timeout scheduled by `recognition.onerror`
(lines 184-188): calls `startListening` only when `isListening` is still
true at fire time. -/
def onerrorRestartFire (s : AppState) : AppState :=
  if s.isListening then startListening s else s

/-- Handler `recognition.onend` of `page.tsx` (lines 192-205): schedules a 100 ms
restart of the engine exactly when `isListening` is true and `isProcessing`
is false; returns the delay of the scheduled restart, if one is scheduled
(the component state itself is unchanged). -/
def onend (s : AppState) : Option Nat :=
  if s.isListening && !s.isProcessing then some ONEND_RESTART_DELAY_MS
  else none

/-- Events delivered to the capture state machine by the environment:
a recognition result event, the firing of the scheduled silence timeout
(carrying the fetch outcome its `handleUserInput` call will observe), or the
user pressing stop. -/
inductive CaptureEvent where
  | result (results : List (Bool × String))
  | timerFire (now : Nat) (outcome : FetchOutcome)
  | stop (now : Nat) (outcome : FetchOutcome)
deriving DecidableEq, Repr

/-- One environment step: result events run `onresult`; a timer fire runs the
silence callback when a timeout is actually scheduled (a cancelled timeout
never fires) and disarms it; stop runs `stopListening`.  The `Option String`
is the content of the turn submitted by the step, if any. -/
def captureStep (e : CaptureEvent) (s : AppState) : AppState × Option String :=
  match e with
  | CaptureEvent.result rs => (onresult rs s, none)
  | CaptureEvent.timerFire now outcome =>
      match s.timerArmed with
      | some _ => silenceCallback now outcome { s with timerArmed := none }
      | none => (s, none)
  | CaptureEvent.stop now outcome => stopListening now outcome s

/-- Run a list of capture events, collecting the submitted turn contents in
order. -/
def runCapture (es : List CaptureEvent) (s : AppState) : AppState × List String :=
  match es with
  | [] => (s, [])
  | e :: rest =>
      let r := captureStep e s
      let r2 := runCapture rest r.1
      (r2.1, r.2.toList ++ r2.2)

/-- The fetch outcomes on which `handleUserInput` lands in its `catch`
branch: a rejected fetch, a non-ok status, or a body on which
`response.json()` throws. -/
def isFailureOutcome : FetchOutcome → Bool
  | FetchOutcome.networkError => true
  | FetchOutcome.response ok body => !ok || body.isNone

/-- A recognition event delivering a single final segment `t`. -/
def finalEvent (t : String) : CaptureEvent :=
  CaptureEvent.result [(true, t)]

/-- Concatenation of a list of transcript segments, in arrival order. -/
def concatAll : List String → String
  | [] => ""
  | t :: ts => t ++ concatAll ts

/-- Whether a capture event delivers no final segment (and is not a stop):
a result event whose results are all interim, or a timer firing. -/
def eventNoFinal : CaptureEvent → Bool
  | CaptureEvent.result rs => rs.all (fun r => !r.1)
  | CaptureEvent.timerFire _ _ => true
  | CaptureEvent.stop _ _ => false

/-- Whether no event of the list delivers a final segment (stops excluded). -/
def noFinalEvents (es : List CaptureEvent) : Bool :=
  es.all eventNoFinal

end VoiceAssistant

namespace ChatRoute

open VoiceAssistant (TokenUsage)

/-- One entry of the `messages` array built by the route: role string and
content. -/
structure ChatMessage where
  role : String
  content : String
deriving DecidableEq, Repr

/-- The parsed JSON body of a chat request as the route destructures it:
`message`, `conversationHistory` (absent or not an array modelled as `none`;
each entry contributes its `role` and `content`), `requestType`. -/
structure ChatRequest where
  message : String
  conversationHistory : Option (List (String × String))
  requestType : String
deriving DecidableEq, Repr

/-- The system prompt of `route.ts` (lines 23-51). -/
def SYSTEM_PROMPT : String :=
  "You are a professional IELTS speaking tutor and voice assistant. Your primary role is to help users improve their English speaking skills for the IELTS exam.\n\nCore Responsibilities:\n- Act as a conversational partner to help improve English fluency\n- Provide IELTS speaking scores when requested (Band 1-9 scale)\n- Give constructive feedback on grammar, vocabulary, fluency, and pronunciation\n- Be patient with pauses, hesitations, and filler words (um, ah, etc.) as these are normal in language learning\n- Encourage natural conversation flow\n- Reference previous conversation context naturally\n\nIELTS Speaking Assessment Criteria:\n1. Fluency and Coherence (0-9): Flow of speech, logical sequencing, appropriate linking\n2. Lexical Resource (0-9): Vocabulary range, accuracy, and appropriateness\n3. Grammatical Range and Accuracy (0-9): Sentence structures, grammar accuracy\n4. Pronunciation (0-9): Individual sounds, word stress, sentence stress, intonation\n\nWhen providing IELTS scores:\n- Give specific band scores for each criterion\n- Provide an overall band score\n- Give detailed feedback with examples from their speech\n- Suggest specific areas for improvement\n- Be encouraging but honest\n\nResponse Style:\n- Be conversational and supportive\n- Keep responses concise (1-3 sentences) unless detailed feedback is requested\n- Use encouraging language\n- Ask follow-up questions to keep conversation flowing\n- Acknowledge improvements and effort"

/-- The fixed IELTS-scoring user prompt of `route.ts` (line 69). -/
def IELTS_PROMPT : String :=
  "Please provide my IELTS speaking score based on our recent conversation. Analyze my: 1) Fluency and Coherence, 2) Lexical Resource (vocabulary), 3) Grammatical Range and Accuracy, 4) Pronunciation (based on what you can infer from my word choices and sentence structures). Give me specific band scores (1-9) for each criterion, an overall band score, and detailed feedback with examples from our conversation. Also suggest specific areas for improvement."

/-- The `messages` array the route assembles (lines 17-77): system prompt,
then the mapped conversation history (any non-`"user"` role becomes
`"assistant"`), then either the fixed IELTS prompt or the current message. -/
def routeMessages (req : ChatRequest) : List ChatMessage :=
  let base : List ChatMessage := [⟨"system", SYSTEM_PROMPT⟩]
  let withHistory :=
    base ++
      (match req.conversationHistory with
       | some hist =>
           hist.map (fun m => ⟨if m.1 = "user" then "user" else "assistant", m.2⟩)
       | none => [])
  if req.requestType = "ielts_score" then withHistory ++ [⟨"user", IELTS_PROMPT⟩]
  else withHistory ++ [⟨"user", req.message⟩]

/-- A JSON response body of the route: either an error object or a success
object carrying the response text and an optional usage object (optional in
the body shape; the theorems settle whether the route ever omits it). -/
inductive RouteBody where
  | errorBody (error : String)
  | successBody (response : String) (usage : Option TokenUsage)
deriving DecidableEq, Repr

/-- Function `POST` of `route.ts`, as a function of the parsed request body (`none`
when `request.json()` throws) and of the `generateText` outcome on the
assembled messages (`none` when it throws): returns HTTP status and JSON
body.  An empty (falsy) `message` with a non-`"ielts_score"` request type is
a 400; any thrown error is the catch-all 500; otherwise a 200 whose body
carries the text and the three usage fields. -/
def POST (reqBody : Option ChatRequest)
    (gen : List ChatMessage → Option (String × TokenUsage)) : Nat × RouteBody :=
  match reqBody with
  | none => (500, RouteBody.errorBody "Failed to process your request")
  | some req =>
      if req.message = "" ∧ req.requestType ≠ "ielts_score" then
        (400, RouteBody.errorBody "Message is required")
      else
        match gen (routeMessages req) with
        | none => (500, RouteBody.errorBody "Failed to process your request")
        | some r =>
            (200, RouteBody.successBody r.1
              (some ⟨r.2.promptTokens, r.2.completionTokens, r.2.totalTokens⟩))

end ChatRoute

namespace VoiceAssistant

/-! ## Helper lemmas -/

/-- Trimming the empty string is the empty string. -/
theorem jsTrim_empty : jsTrim "" = "" := rfl

/-- A string append is empty exactly when both parts are. -/
theorem string_append_eq_empty {a b : String} : a ++ b = "" ↔ a = "" ∧ b = "" := by
  constructor
  · intro h
    have hd : a.data ++ b.data = [] := by
      have := congrArg String.data h
      simpa using this
    rcases List.append_eq_nil.mp hd with ⟨ha, hb⟩
    exact ⟨String.ext ha, String.ext hb⟩
  · rintro ⟨rfl, rfl⟩
    rfl

/-- A list whose head does not satisfy `p` is unchanged by `dropWhile p`. -/
theorem dropWhile_eq_self_of_head (p : Char → Bool) (l : List Char)
    (h : ∀ x ∈ l.head?, p x = false) : l.dropWhile p = l := by
  cases l with
  | nil => rfl
  | cons x xs =>
      have hx := h x (by simp)
      simp [List.dropWhile_cons, hx]

/-- The JavaScript trim is idempotent. -/
theorem jsTrim_idem (s : String) : jsTrim (jsTrim s) = jsTrim s := by
  have key : ∀ l : List Char,
      (List.rdropWhile Char.isWhitespace (l.dropWhile Char.isWhitespace)).dropWhile
          Char.isWhitespace
        = List.rdropWhile Char.isWhitespace (l.dropWhile Char.isWhitespace) := by
    intro l
    apply dropWhile_eq_self_of_head
    intro x hx
    obtain ⟨u, hu⟩ :=
      List.rdropWhile_prefix Char.isWhitespace (l.dropWhile Char.isWhitespace)
    generalize hT : List.rdropWhile Char.isWhitespace (l.dropWhile Char.isWhitespace) = t
      at hu hx
    cases t with
    | nil => simp at hx
    | cons y t' =>
        have hxy : y = x := by simpa using hx
        have hy : (l.dropWhile Char.isWhitespace).head? = some y := by
          rw [← hu]
          simp
        have hhead : Char.isWhitespace y = false := by
          have h2 := List.head?_dropWhile_not Char.isWhitespace l
          rw [hy] at h2
          exact h2
        rwa [← hxy]
  show (⟨List.rdropWhile Char.isWhitespace
      ((List.rdropWhile Char.isWhitespace
        (s.data.dropWhile Char.isWhitespace)).dropWhile Char.isWhitespace)⟩ : String) = _
  rw [key, List.rdropWhile_idempotent]
  rfl

/-- After a non-whitespace-only `handleUserInput` call, the backend is called
and the user's message is appended to the log (followed only by whatever the
outcome branch appends). -/
theorem handleUserInput_submits (now : Nat) (input : String) (outcome : FetchOutcome)
    (s : AppState) (h : jsTrim input ≠ "") :
    (handleUserInput now input outcome s).backendCalled = true ∧
    ∃ rest, (handleUserInput now input outcome s).state.messages
        = s.messages ++ Message.mk Role.user (some input) now :: rest := by
  unfold handleUserInput
  rw [if_neg h]
  cases outcome with
  | networkError => exact ⟨rfl, [], by simp⟩
  | response ok body =>
      cases ok with
      | false => exact ⟨rfl, [], by simp⟩
      | true =>
          cases body with
          | none => exact ⟨rfl, [], by simp⟩
          | some data =>
              cases hdu : data.usage with
              | none =>
                  refine ⟨rfl, [Message.mk Role.assistant data.response now], ?_⟩
                  simp [hdu]
              | some u =>
                  refine ⟨rfl, [Message.mk Role.assistant data.response now], ?_⟩
                  simp [hdu]

/-- Running `handleUserInput` never touches the listening flag, the silence
timer variable, the armed timeout, or the transcript buffer. -/
theorem handleUserInput_preserves (now : Nat) (input : String) (outcome : FetchOutcome)
    (s : AppState) :
    (handleUserInput now input outcome s).state.isListening = s.isListening ∧
    (handleUserInput now input outcome s).state.silenceTimer = s.silenceTimer ∧
    (handleUserInput now input outcome s).state.timerArmed = s.timerArmed ∧
    (handleUserInput now input outcome s).state.finalTranscript = s.finalTranscript := by
  unfold handleUserInput
  by_cases h : jsTrim input = ""
  · rw [if_pos h]
    exact ⟨rfl, rfl, rfl, rfl⟩
  · rw [if_neg h]
    cases outcome with
    | networkError => exact ⟨rfl, rfl, rfl, rfl⟩
    | response ok body =>
        cases ok with
        | false => exact ⟨rfl, rfl, rfl, rfl⟩
        | true =>
            cases body with
            | none => exact ⟨rfl, rfl, rfl, rfl⟩
            | some data =>
                cases hdu : data.usage with
                | none => simp [hdu]
                | some u => simp [hdu]

end VoiceAssistant

namespace VoiceAssistant

/-! ## Claim theorems -/

/-- C1, counterexample: a `handleUserInput` call made while `processing` is
already true is not a no-op — the backend is called and the user message is
appended all the same (the source has no in-flight guard). -/
theorem handleUserInput_inflight_not_noop :
    (handleUserInput 0 "hello" FetchOutcome.networkError
        { initState with isProcessing := true }).backendCalled = true ∧
    (handleUserInput 0 "hello" FetchOutcome.networkError
        { initState with isProcessing := true }).state.messages
      = [Message.mk Role.user (some "hello") 0] :=
  ⟨rfl, rfl⟩

/-- C1, amended: `handleUserInput` returns without calling the backend only
when its input is whitespace-only; the `processing` flag is never consulted,
so a call made while a request is in flight still issues a backend call and
appends the user's message. -/
theorem handleUserInput_blank_guard_only (now : Nat) (input : String)
    (outcome : FetchOutcome) (s : AppState) :
    (jsTrim input = "" → handleUserInput now input outcome s = ⟨s, false, none⟩) ∧
    (jsTrim input ≠ "" →
      (handleUserInput now input outcome s).backendCalled = true ∧
      ∃ rest, (handleUserInput now input outcome s).state.messages
          = s.messages ++ Message.mk Role.user (some input) now :: rest) := by
  constructor
  · intro h
    unfold handleUserInput
    rw [if_pos h]
  · intro h
    exact handleUserInput_submits now input outcome s h

/-- C1, witness for `handleUserInput_blank_guard_only`. -/
theorem handleUserInput_blank_guard_only_witness :
    handleUserInput 0 "   " FetchOutcome.networkError initState = ⟨initState, false, none⟩ ∧
    (handleUserInput 0 "hi" FetchOutcome.networkError
        { initState with isProcessing := true }).backendCalled = true :=
  ⟨(handleUserInput_blank_guard_only 0 "   " FetchOutcome.networkError initState).1
      (by decide),
   ((handleUserInput_blank_guard_only 0 "hi" FetchOutcome.networkError
      { initState with isProcessing := true }).2 (by decide)).1⟩

/-- C5, counterexample: a 2xx response whose parsed JSON body lacks the
`response` field is treated as success — an assistant message (with missing
content) is appended and no error is surfaced, contradicting the claim for
the malformed-payload case. -/
theorem wellformed_json_missing_response_appends_assistant :
    (handleUserInput 0 "hi" (FetchOutcome.response true (some ⟨none, none⟩))
        initState).state.messages
      = [Message.mk Role.user (some "hi") 0, Message.mk Role.assistant none 0] ∧
    (handleUserInput 0 "hi" (FetchOutcome.response true (some ⟨none, none⟩))
        initState).state.error = "" :=
  ⟨rfl, rfl⟩

/-- C5, amended: for every backend failure that reaches the `catch` branch —
rejected fetch, non-success HTTP status, or unparseable body — exactly one
user-visible error string is set, no assistant message is appended, the log
still ends with the user's own message, and `processing` is reset to false.
(A parseable body of unexpected shape is not detected and is handled as
success.) -/
theorem backend_failure_single_error (now : Nat) (input : String)
    (outcome : FetchOutcome) (s : AppState)
    (hin : jsTrim input ≠ "") (hfail : isFailureOutcome outcome = true) :
    handleUserInput now input outcome s =
      ⟨{ s with messages := s.messages ++ [Message.mk Role.user (some input) now]
                transcript := ""
                error := FAILED_MSG
                isProcessing := false }, true, none⟩ := by
  unfold handleUserInput
  rw [if_neg hin]
  cases outcome with
  | networkError => rfl
  | response ok body =>
      cases ok with
      | false => rfl
      | true =>
          cases body with
          | none => rfl
          | some data => simp [isFailureOutcome] at hfail

/-- C5, witness for `backend_failure_single_error`. -/
theorem backend_failure_single_error_witness :
    handleUserInput 0 "hi" FetchOutcome.networkError initState =
      ⟨{ initState with
            messages := [Message.mk Role.user (some "hi") 0]
            transcript := ""
            error := FAILED_MSG
            isProcessing := false }, true, none⟩ := by
  have h := backend_failure_single_error 0 "hi" FetchOutcome.networkError initState
    (by decide) rfl
  simpa using h

/-- C6, counterexample: an `"aborted"` engine error is neither transient
(`"network"`/`"no-speech"`) nor surfaced — the handler falls through with no
error message and no restart, contradicting the claim that every
non-transient error is surfaced. -/
theorem aborted_error_not_surfaced :
    onerror "aborted" { initState with isListening := true }
      = ({ initState with isListening := true }, false) ∧
    ({ initState with isListening := true } : AppState).error = "" :=
  ⟨by decide, rfl⟩

/-- C6, amended: `"network"` and `"no-speech"` errors are swallowed with
listening unaffected; an `"aborted"` error is also silently ignored (no
message, no restart); every other error sets the user-visible error string
and schedules a delayed restart attempt, which at fire time starts
recognition again only when the state machine is still in Listening. -/
theorem onerror_policy (errType : String) (s : AppState) :
    (errType = "network" ∨ errType = "no-speech" → onerror errType s = (s, false)) ∧
    (errType = "aborted" → onerror errType s = (s, false)) ∧
    (errType ≠ "network" → errType ≠ "no-speech" → errType ≠ "aborted" →
      onerror errType s
        = ({ s with error := "Speech recognition error: " ++ errType }, true)) ∧
    (s.isListening = false → onerrorRestartFire s = s) ∧
    (s.isListening = true → onerrorRestartFire s = startListening s) := by
  refine ⟨?_, ?_, ?_, ?_, ?_⟩
  · intro h
    unfold onerror
    rw [if_pos h]
  · intro h
    subst h
    unfold onerror
    rw [if_neg (by decide), if_pos rfl]
  · intro h1 h2 h3
    unfold onerror
    rw [if_neg (not_or.mpr ⟨h1, h2⟩), if_neg h3]
  · intro h
    simp [onerrorRestartFire, h]
  · intro h
    simp [onerrorRestartFire, h]

/-- C6, witness for `onerror_policy`. -/
theorem onerror_policy_witness :
    onerror "no-speech" initState = (initState, false) ∧
    onerror "audio-capture" initState
      = ({ initState with error := "Speech recognition error: " ++ "audio-capture" }, true) :=
  ⟨(onerror_policy "no-speech" initState).1 (Or.inr rfl),
   (onerror_policy "audio-capture" initState).2.2.1 (by decide) (by decide) (by decide)⟩

/-- C7: the engine-level end handler schedules a 100 ms restart exactly when
the machine is logically listening and no turn is being processed; while
`processing` is true no restart is scheduled. -/
theorem onend_restart_policy (s : AppState) :
    (s.isListening = true → s.isProcessing = false → onend s = some ONEND_RESTART_DELAY_MS) ∧
    (s.isProcessing = true → onend s = none) ∧
    ONEND_RESTART_DELAY_MS = 100 := by
  refine ⟨?_, ?_, rfl⟩
  · intro h1 h2
    simp [onend, h1, h2]
  · intro h
    simp [onend, h]

/-- C7, witness for `onend_restart_policy`. -/
theorem onend_restart_policy_witness :
    onend { initState with isListening := true } = some ONEND_RESTART_DELAY_MS ∧
    onend { initState with isProcessing := true } = none :=
  ⟨(onend_restart_policy { initState with isListening := true }).1 rfl rfl,
   (onend_restart_policy { initState with isProcessing := true }).2.1 rfl⟩

/-- C8: an IELTS-score request with an empty conversation log is rejected
locally — the "have a conversation first" error is set and no backend call
is made. -/
theorem ielts_score_empty_log_rejected (now : Nat) (outcome : FetchOutcome)
    (s : AppState) (h : s.messages = []) :
    requestIELTSScore now outcome s
      = ⟨{ s with error := NEED_CONVERSATION_MSG }, false, none⟩ := by
  unfold requestIELTSScore
  rw [if_pos (by simp [h])]

/-- C8, witness for `ielts_score_empty_log_rejected`. -/
theorem ielts_score_empty_log_rejected_witness :
    requestIELTSScore 0 FetchOutcome.networkError initState
      = ⟨{ initState with error := NEED_CONVERSATION_MSG }, false, none⟩ :=
  ielts_score_empty_log_rejected 0 FetchOutcome.networkError initState rfl

/-- C9: recording usage `(100, 50, 150)` and then `(200, 100, 300)` yields
exactly the same five cost totals as recording `(300, 150, 450)` in one
call, from any starting totals — cost accumulation sums each component
independently. -/
theorem cost_accumulation_assoc (prev : CostCalculation) :
    calculateCost ⟨200, 100, 300⟩ (calculateCost ⟨100, 50, 150⟩ prev)
      = calculateCost ⟨300, 150, 450⟩ prev := by
  cases prev
  simp only [calculateCost, PROMPT_TOKEN_COST, COMPLETION_TOKEN_COST, USD_TO_BDT_RATE]
  norm_num
  ring_nf
  norm_num

end VoiceAssistant

namespace ChatRoute

open VoiceAssistant (TokenUsage)

/-- C10: every 200 response of the chat route carries a usage object (with
its three token fields) alongside the response text — usage is never omitted
on success. -/
theorem post_success_always_has_usage (reqBody : Option ChatRequest)
    (gen : List ChatMessage → Option (String × TokenUsage))
    (h : (POST reqBody gen).1 = 200) :
    ∃ text u, (POST reqBody gen).2 = RouteBody.successBody text (some u) := by
  cases reqBody with
  | none => simp [POST] at h
  | some req =>
      simp only [POST] at h ⊢
      by_cases hm : req.message = "" ∧ req.requestType ≠ "ielts_score"
      · rw [if_pos hm] at h
        simp at h
      · rw [if_neg hm] at h ⊢
        cases hgen : gen (routeMessages req) with
        | none =>
            rw [hgen] at h
            simp at h
        | some r =>
            exact ⟨r.1, ⟨r.2.promptTokens, r.2.completionTokens, r.2.totalTokens⟩, rfl⟩

/-- C10, witness for `post_success_always_has_usage`. -/
theorem post_success_always_has_usage_witness :
    ∃ text u,
      (POST (some ⟨"hi", none, "normal"⟩)
        (fun _ => some ("ok", ⟨1, 2, 3⟩))).2 = RouteBody.successBody text (some u) :=
  post_success_always_has_usage (some ⟨"hi", none, "normal"⟩)
    (fun _ => some ("ok", ⟨1, 2, 3⟩)) rfl

end ChatRoute

namespace VoiceAssistant

/-! ## Capture-trace lemmas and claims C2-C4 -/

/-- Unfolding `runCapture` on the empty event list. -/
theorem runCapture_nil (s : AppState) : runCapture [] s = (s, []) := rfl

/-- Unfolding `runCapture` on a cons. -/
theorem runCapture_cons (e : CaptureEvent) (es : List CaptureEvent) (s : AppState) :
    runCapture (e :: es) s
      = ((runCapture es (captureStep e s).1).1,
         (captureStep e s).2.toList ++ (runCapture es (captureStep e s).1).2) := rfl

/-- Submissions of a concatenated trace are the concatenated submissions. -/
theorem runCapture_append (es1 es2 : List CaptureEvent) (s : AppState) :
    runCapture (es1 ++ es2) s
      = ((runCapture es2 (runCapture es1 s).1).1,
         (runCapture es1 s).2 ++ (runCapture es2 (runCapture es1 s).1).2) := by
  induction es1 generalizing s with
  | nil => simp [runCapture_nil]
  | cons e es ih => simp [runCapture_cons, ih, List.append_assoc]

/-- A final-segment event with empty transcript only refreshes the preview. -/
theorem captureStep_finalEvent_empty (s : AppState) :
    captureStep (finalEvent "") s
      = ({ s with transcript := s.finalTranscript }, none) := by
  simp [captureStep, finalEvent, onresult, splitResults]

/-- A final-segment event with non-empty transcript appends to the buffer,
marks spoken content and (re)arms the 3000 ms silence timer. -/
theorem captureStep_finalEvent_ne (t : String) (ht : t ≠ "") (s : AppState) :
    captureStep (finalEvent t) s
      = ({ s with transcript := s.finalTranscript ++ t
                  finalTranscript := s.finalTranscript ++ t
                  hasSpokenContent := true
                  timerArmed := some SILENCE_TIMEOUT_MS
                  silenceTimer := true }, none) := by
  simp [captureStep, finalEvent, onresult, splitResults, ht]

/-- Effect of a run of final-segment events: no submission, the buffer grows
by the concatenation of the segments, spoken content and the armed timer are
set as soon as some segment is non-empty, and the message log is untouched. -/
theorem runFinals_spec (ts : List String) (s : AppState) :
    (runCapture (ts.map finalEvent) s).2 = [] ∧
    (runCapture (ts.map finalEvent) s).1.finalTranscript
        = s.finalTranscript ++ concatAll ts ∧
    (runCapture (ts.map finalEvent) s).1.hasSpokenContent
        = (if concatAll ts = "" then s.hasSpokenContent else true) ∧
    (runCapture (ts.map finalEvent) s).1.timerArmed
        = (if concatAll ts = "" then s.timerArmed else some SILENCE_TIMEOUT_MS) ∧
    (runCapture (ts.map finalEvent) s).1.messages = s.messages := by
  induction ts generalizing s with
  | nil => simp [runCapture_nil, concatAll]
  | cons t ts ih =>
      by_cases ht : t = ""
      · subst ht
        rw [List.map_cons, runCapture_cons, captureStep_finalEvent_empty]
        obtain ⟨h1, h2, h3, h4, h5⟩ := ih { s with transcript := s.finalTranscript }
        refine ⟨by simpa using h1, by simpa [concatAll] using h2,
          by simpa [concatAll] using h3, by simpa [concatAll] using h4,
          by simpa using h5⟩
      · rw [List.map_cons, runCapture_cons, captureStep_finalEvent_ne t ht]
        obtain ⟨h1, h2, h3, h4, h5⟩ :=
          ih { s with transcript := s.finalTranscript ++ t
                      finalTranscript := s.finalTranscript ++ t
                      hasSpokenContent := true
                      timerArmed := some SILENCE_TIMEOUT_MS
                      silenceTimer := true }
        have htc : t ++ concatAll ts ≠ "" :=
          fun hc => ht (string_append_eq_empty.mp hc).1
        refine ⟨by simpa using h1, ?_, ?_, ?_, by simpa using h5⟩
        · rw [show concatAll (t :: ts) = t ++ concatAll ts from rfl]
          rw [← String.append_assoc]
          simpa using h2
        · rw [show concatAll (t :: ts) = t ++ concatAll ts from rfl, if_neg htc]
          rw [h3]
          split <;> rfl
        · rw [show concatAll (t :: ts) = t ++ concatAll ts from rfl, if_neg htc]
          rw [h4]
          split <;> rfl

/-- When the trimmed buffer is non-empty and spoken content is flagged, the
silence callback submits the trimmed buffer and clears buffer and flag. -/
theorem silenceCallback_submits (now : Nat) (outcome : FetchOutcome) (s : AppState)
    (h1 : jsTrim s.finalTranscript ≠ "") (h2 : s.hasSpokenContent = true) :
    silenceCallback now outcome s
      = ({ (handleUserInput now (jsTrim s.finalTranscript) outcome s).state with
            finalTranscript := "", hasSpokenContent := false },
         some (jsTrim s.finalTranscript)) := by
  unfold silenceCallback
  rw [if_neg h1, h2]
  simp

/-- C2, counterexample: a whitespace-only final segment arms the silence
timer, but when the timer fires no turn is submitted at all (the trimmed
buffer is empty), contradicting the claim that exactly one turn with the
concatenated content is submitted. -/
theorem whitespace_final_silence_no_submission :
    (runCapture [finalEvent " ", CaptureEvent.timerFire 0 FetchOutcome.networkError]
        initState).2 = [] ∧
    (onresult [(true, " ")] initState).timerArmed = some SILENCE_TIMEOUT_MS :=
  ⟨rfl, rfl⟩

/-- C2, amended: for every run of final-segment arrivals with no intervening
interim segment, starting from an empty buffer, whose concatenation is not
whitespace-only, the 3000 ms silence timer is armed, and its firing submits
exactly one turn whose content is the whitespace-trimmed concatenation of the
segments; the buffer and spoken-content flag are cleared and the user message
lands in the log.  (A whitespace-only accumulation produces no submission.) -/
theorem finals_then_silence_submits_trimmed_concat
    (ts : List String) (now : Nat) (outcome : FetchOutcome) (s : AppState)
    (hbuf : s.finalTranscript = "")
    (hne : jsTrim (concatAll ts) ≠ "") :
    (runCapture (ts.map finalEvent ++ [CaptureEvent.timerFire now outcome]) s).2
        = [jsTrim (concatAll ts)] ∧
    (runCapture (ts.map finalEvent) s).1.timerArmed = some SILENCE_TIMEOUT_MS ∧
    SILENCE_TIMEOUT_MS = 3000 ∧
    (runCapture (ts.map finalEvent ++ [CaptureEvent.timerFire now outcome]) s).1.finalTranscript
        = "" ∧
    (runCapture (ts.map finalEvent ++ [CaptureEvent.timerFire now outcome]) s).1.hasSpokenContent
        = false ∧
    (∃ rest,
      (runCapture (ts.map finalEvent ++ [CaptureEvent.timerFire now outcome]) s).1.messages
        = s.messages ++ Message.mk Role.user (some (jsTrim (concatAll ts))) now :: rest) := by
  have hc : concatAll ts ≠ "" := by
    intro h
    rw [h] at hne
    exact hne rfl
  obtain ⟨h1, h2, h3, h4, h5⟩ := runFinals_spec ts s
  rw [hbuf] at h2
  have h2' : (runCapture (ts.map finalEvent) s).1.finalTranscript = concatAll ts := by
    simpa using h2
  have h3' : (runCapture (ts.map finalEvent) s).1.hasSpokenContent = true := by
    rw [h3, if_neg hc]
  have h4' : (runCapture (ts.map finalEvent) s).1.timerArmed = some SILENCE_TIMEOUT_MS := by
    rw [h4, if_neg hc]
  have hstep : captureStep (CaptureEvent.timerFire now outcome)
        (runCapture (ts.map finalEvent) s).1
      = silenceCallback now outcome
          { (runCapture (ts.map finalEvent) s).1 with timerArmed := none } := by
    simp only [captureStep]
    rw [h4']
  have hmid : jsTrim ({ (runCapture (ts.map finalEvent) s).1 with
      timerArmed := none } : AppState).finalTranscript ≠ "" := by
    rw [show ({ (runCapture (ts.map finalEvent) s).1 with
        timerArmed := none } : AppState).finalTranscript
      = (runCapture (ts.map finalEvent) s).1.finalTranscript from rfl, h2']
    exact hne
  have hcall := silenceCallback_submits now outcome
    { (runCapture (ts.map finalEvent) s).1 with timerArmed := none } hmid
    (by rw [show ({ (runCapture (ts.map finalEvent) s).1 with
        timerArmed := none } : AppState).hasSpokenContent
      = (runCapture (ts.map finalEvent) s).1.hasSpokenContent from rfl, h3'])
  have hsub : jsTrim ({ (runCapture (ts.map finalEvent) s).1 with
        timerArmed := none } : AppState).finalTranscript = jsTrim (concatAll ts) := by
    rw [show ({ (runCapture (ts.map finalEvent) s).1 with
        timerArmed := none } : AppState).finalTranscript
      = (runCapture (ts.map finalEvent) s).1.finalTranscript from rfl, h2']
  rw [hsub] at hcall
  obtain ⟨hb, rest, hmsg⟩ := handleUserInput_submits now (jsTrim (concatAll ts)) outcome
    { (runCapture (ts.map finalEvent) s).1 with timerArmed := none }
    (by rw [jsTrim_idem]; exact hne)
  rw [runCapture_append]
  rw [runCapture_cons, hstep, hcall]
  refine ⟨?_, h4', rfl, rfl, rfl, ⟨rest, ?_⟩⟩
  · rw [h1]
    rfl
  · show (handleUserInput now (jsTrim (concatAll ts)) outcome
        { (runCapture (ts.map finalEvent) s).1 with timerArmed := none }).state.messages
      = _
    rw [hmsg]
    rw [show ({ (runCapture (ts.map finalEvent) s).1 with
        timerArmed := none } : AppState).messages
      = (runCapture (ts.map finalEvent) s).1.messages from rfl, h5]

/-- C2, witness for `finals_then_silence_submits_trimmed_concat`. -/
theorem finals_then_silence_submits_trimmed_concat_witness :
    (runCapture ([" hello"].map finalEvent
        ++ [CaptureEvent.timerFire 0 FetchOutcome.networkError]) initState).2
      = [jsTrim (concatAll [" hello"])] :=
  (finals_then_silence_submits_trimmed_concat [" hello"] 0 FetchOutcome.networkError
    initState rfl (by decide)).1

/-- A result list of interim-only segments contributes no final transcript. -/
theorem splitResults_fst_interim (rs : List (Bool × String))
    (h : rs.all (fun r => !r.1) = true) : (splitResults rs).1 = "" := by
  have aux : ∀ (l : List (Bool × String)) (acc : String × String),
      l.all (fun r => !r.1) = true →
      (l.foldl (fun acc r =>
          if r.1 then (acc.1 ++ r.2, acc.2) else (acc.1, acc.2 ++ r.2)) acc).1
        = acc.1 := by
    intro l
    induction l with
    | nil => intro acc _; rfl
    | cons r l ih =>
        intro acc hall
        rw [List.all_cons] at hall
        obtain ⟨hr, hl⟩ := Bool.and_eq_true_iff.mp hall
        have hr' : r.1 = false := by simpa using hr
        rw [List.foldl_cons, hr']
        simpa using ih _ hl
  exact aux rs ("", "") h

/-- An interim-only result event never arms the silence timer. -/
theorem onresult_interim_keeps_unarmed (rs : List (Bool × String))
    (h : rs.all (fun r => !r.1) = true) (s : AppState)
    (ha : s.timerArmed = none) : (onresult rs s).timerArmed = none := by
  have hf := splitResults_fst_interim rs h
  simp only [onresult, hf]
  rw [if_pos trivial]
  split
  · exact ha
  · split
    · rfl
    · exact ha

/-- A trace with no final segment (and no stop) never submits a turn and
never arms the silence timer, starting from an unarmed state. -/
theorem noFinals_no_submission :
    ∀ (es : List CaptureEvent), noFinalEvents es = true →
    ∀ s : AppState, s.timerArmed = none →
      (runCapture es s).2 = [] ∧ (runCapture es s).1.timerArmed = none := by
  intro es
  induction es with
  | nil => intro _ s ha; exact ⟨rfl, ha⟩
  | cons e es ih =>
      intro h s ha
      rw [noFinalEvents, List.all_cons] at h
      obtain ⟨he, hes⟩ := Bool.and_eq_true_iff.mp h
      cases e with
      | result rs =>
          have hrs : rs.all (fun r => !r.1) = true := by simpa [eventNoFinal] using he
          rw [runCapture_cons]
          have ha' := onresult_interim_keeps_unarmed rs hrs s ha
          obtain ⟨ih1, ih2⟩ := ih hes (onresult rs s) ha'
          exact ⟨by simpa [captureStep] using ih1, by simpa [captureStep] using ih2⟩
      | timerFire now outcome =>
          rw [runCapture_cons]
          have hstep : captureStep (CaptureEvent.timerFire now outcome) s = (s, none) := by
            simp only [captureStep]
            rw [ha]
          rw [hstep]
          obtain ⟨ih1, ih2⟩ := ih hes s ha
          exact ⟨by simpa using ih1, by simpa using ih2⟩
      | stop now outcome => simp [eventNoFinal] at he

/-- C3: an interim segment arriving while the silence timer is pending
cancels the timer (no submission happens at that event), and along any
further recognition events containing no final segment — interim results and
timer fires — no turn is submitted. -/
theorem interim_cancels_pending_timer (s : AppState) (t : String)
    (es : List CaptureEvent)
    (hvar : s.silenceTimer = true)
    (_harmed : s.timerArmed = some SILENCE_TIMEOUT_MS)
    (ht : t ≠ "") (hes : noFinalEvents es = true) :
    (captureStep (CaptureEvent.result [(false, t)]) s).2 = none ∧
    (captureStep (CaptureEvent.result [(false, t)]) s).1.timerArmed = none ∧
    (captureStep (CaptureEvent.result [(false, t)]) s).1.silenceTimer = false ∧
    (runCapture es (captureStep (CaptureEvent.result [(false, t)]) s).1).2 = [] := by
  have hstep : captureStep (CaptureEvent.result [(false, t)]) s
      = ({ s with transcript := s.finalTranscript ++ t
                  timerArmed := none
                  silenceTimer := false }, none) := by
    simp [captureStep, onresult, splitResults, ht, hvar]
  rw [hstep]
  exact ⟨rfl, rfl, rfl, (noFinals_no_submission es hes _ rfl).1⟩

/-- C3, witness for `interim_cancels_pending_timer`. -/
theorem interim_cancels_pending_timer_witness :
    (captureStep (CaptureEvent.result [(false, "um")])
        { initState with silenceTimer := true,
                         timerArmed := some SILENCE_TIMEOUT_MS }).2 = none ∧
    (captureStep (CaptureEvent.result [(false, "um")])
        { initState with silenceTimer := true,
                         timerArmed := some SILENCE_TIMEOUT_MS }).1.timerArmed = none := by
  have h := interim_cancels_pending_timer
    { initState with silenceTimer := true, timerArmed := some SILENCE_TIMEOUT_MS }
    "um" [CaptureEvent.timerFire 0 FetchOutcome.networkError] rfl rfl (by decide) rfl
  exact ⟨h.1, h.2.1⟩

/-- C4, counterexample: stopping with buffer `" hi "` submits `"hi"`, the
whitespace-trimmed content, not the buffer's literal content `" hi "`. -/
theorem stop_flush_trims_buffer_content :
    (stopListening 0 FetchOutcome.networkError
        { initState with isListening := true, finalTranscript := " hi "
                         hasSpokenContent := true, silenceTimer := true
                         timerArmed := some SILENCE_TIMEOUT_MS }).2 = some "hi" ∧
    ("hi" : String) ≠ " hi " :=
  ⟨by decide, by decide⟩

/-- C4, amended: calling stop with a buffer that is not whitespace-only
cancels any pending silence timer and yields exactly one submission whose
content is the whitespace-trimmed buffer content; afterwards the buffer is
empty, the spoken-content flag is cleared and listening is off, and the
submitted user message lands in the log. -/
theorem stop_flushes_trimmed_buffer (now : Nat) (outcome : FetchOutcome) (s : AppState)
    (hne : jsTrim s.finalTranscript ≠ "")
    (hwf : s.timerArmed ≠ none → s.silenceTimer = true) :
    (stopListening now outcome s).2 = some (jsTrim s.finalTranscript) ∧
    (stopListening now outcome s).1.finalTranscript = "" ∧
    (stopListening now outcome s).1.hasSpokenContent = false ∧
    (stopListening now outcome s).1.timerArmed = none ∧
    (stopListening now outcome s).1.silenceTimer = false ∧
    (stopListening now outcome s).1.isListening = false ∧
    (∃ rest, (stopListening now outcome s).1.messages
        = s.messages ++ Message.mk Role.user (some (jsTrim s.finalTranscript)) now :: rest) := by
  cases hvt : s.silenceTimer with
  | true =>
      have hcore : stopListening now outcome s
          = ({ (handleUserInput now (jsTrim s.finalTranscript) outcome
                { s with isListening := false, timerArmed := none,
                         silenceTimer := false }).state
              with finalTranscript := "", hasSpokenContent := false },
             some (jsTrim s.finalTranscript)) := by
        simp [stopListening, hvt, hne]
      obtain ⟨hp1, hp2, hp3, hp4⟩ := handleUserInput_preserves now
        (jsTrim s.finalTranscript) outcome
        { s with isListening := false, timerArmed := none, silenceTimer := false }
      obtain ⟨hb, rest, hmsg⟩ := handleUserInput_submits now
        (jsTrim s.finalTranscript) outcome
        { s with isListening := false, timerArmed := none, silenceTimer := false }
        (by rw [jsTrim_idem]; exact hne)
      rw [hcore]
      exact ⟨rfl, rfl, rfl, by simpa using hp3, by simpa using hp2,
        by simpa using hp1, ⟨rest, by simpa using hmsg⟩⟩
  | false =>
      have harm : s.timerArmed = none := by
        by_cases h : s.timerArmed = none
        · exact h
        · rw [hvt] at hwf
          exact absurd (hwf h) (by simp)
      have hcore : stopListening now outcome s
          = ({ (handleUserInput now (jsTrim s.finalTranscript) outcome
                { s with isListening := false }).state
              with finalTranscript := "", hasSpokenContent := false },
             some (jsTrim s.finalTranscript)) := by
        simp [stopListening, hvt, hne]
      obtain ⟨hp1, hp2, hp3, hp4⟩ := handleUserInput_preserves now
        (jsTrim s.finalTranscript) outcome { s with isListening := false }
      obtain ⟨hb, rest, hmsg⟩ := handleUserInput_submits now
        (jsTrim s.finalTranscript) outcome { s with isListening := false }
        (by rw [jsTrim_idem]; exact hne)
      rw [hcore]
      refine ⟨rfl, rfl, rfl, ?_, ?_, by simpa using hp1, ⟨rest, by simpa using hmsg⟩⟩
      · rw [show ({ (handleUserInput now (jsTrim s.finalTranscript) outcome
            { s with isListening := false }).state
            with finalTranscript := "", hasSpokenContent := false } : AppState).timerArmed
          = (handleUserInput now (jsTrim s.finalTranscript) outcome
            { s with isListening := false }).state.timerArmed from rfl, hp3]
        exact harm
      · rw [show ({ (handleUserInput now (jsTrim s.finalTranscript) outcome
            { s with isListening := false }).state
            with finalTranscript := "", hasSpokenContent := false } : AppState).silenceTimer
          = (handleUserInput now (jsTrim s.finalTranscript) outcome
            { s with isListening := false }).state.silenceTimer from rfl, hp2]
        exact hvt

/-- C4, witness for `stop_flushes_trimmed_buffer`. -/
theorem stop_flushes_trimmed_buffer_witness :
    (stopListening 0 FetchOutcome.networkError
        { initState with isListening := true, finalTranscript := "hello",
                         hasSpokenContent := true }).2
      = some (jsTrim "hello") :=
  (stop_flushes_trimmed_buffer 0 FetchOutcome.networkError
    { initState with isListening := true, finalTranscript := "hello",
                     hasSpokenContent := true }
    (by decide) (fun h => absurd rfl h)).1

end VoiceAssistant
